import Mathlib

/-!
Shallow embedding of the prometheus-mcp server core: the backend client's
response-envelope handling and error translation (src/prometheusClient.ts),
the relative-time parsing and step policy of the query/alert tools
(src/tools/queries.ts, src/tools/alerts.ts), the target tools
(src/tools/health.ts), the node-exporter helper, the tool-call dispatcher
(src/index.ts) and the axios configuration built by the client constructor.
JavaScript strings are Lean `String`s, numbers that the claims compute on are
`Nat`/`Int`, optional values are `Option`, and a thrown exception is the
`Except.error` branch carrying the error's message.
-/

/-- JavaScript truthiness of a string-or-undefined value: `undefined` and the
empty string are falsy, every other string truthy. -/
def jsTruthy : Option String → Bool
  | none => false
  | some s => !(s == "")

/-- JavaScript `a || b` for a string-or-undefined `a` and a string default
`b`, as in `args.timeRange || "5m"`. -/
def jsOrD (a : Option String) (b : String) : String :=
  match a with
  | none => b
  | some s => if s == "" then b else s

/-- Template-literal rendering of a string-or-undefined value: interpolating
`undefined` yields the text "undefined". -/
def jsShow : Option String → String
  | none => "undefined"
  | some s => s

/-- JavaScript `s || null` for a string `s`: the empty string becomes null. -/
def jsOrNull (s : String) : Option String :=
  if s == "" then none else some s

/-- Property access on a JavaScript object with string values: absent keys
read as `undefined`. -/
def jsGet (m : List (String × String)) (key : String) : Option String :=
  match m.find? (fun p => p.1 == key) with
  | none => none
  | some p => some p.2

/-- `segIn t s` decides whether the character list `t` occurs contiguously
inside `s`. -/
def segIn : List Char → List Char → Bool
  | t, [] => List.isPrefixOf t []
  | t, s@(_ :: rest) => List.isPrefixOf t s || segIn t rest

/-- `strIncludes s t` decides whether `t` occurs as a substring of `s`
(JavaScript `s.includes(t)`). -/
def strIncludes (s t : String) : Bool := segIn t.data s.data

/-! ## Time Expression Parser

The regex block `/^(\d+)([smhdw])$/` with its multiplier table appears
verbatim in two handlers: `query_range` (src/tools/queries.ts lines 35-52)
and `get_alert_history` (src/tools/alerts.ts lines 113-128). It is embedded
once here. -/

/-- The `multipliers` table of both handlers, keyed by the unit character
captured by `[smhdw]`; any other character means the regex does not match. -/
def unitMultiplier : Char → Option Nat
  | 's' => some 1000
  | 'm' => some 60000
  | 'h' => some 3600000
  | 'd' => some 86400000
  | 'w' => some 604800000
  | _ => none

/-- `parseInt` on a string of decimal digits. -/
def digitsToNat (cs : List Char) : Nat :=
  cs.foldl (fun acc c => acc * 10 + (c.toNat - 48)) 0

/-- The combined effect of testing `/^(\d+)([smhdw])$/` and computing
`value * multipliers[unit]`: `some ms` when the string matches the grammar,
`none` otherwise. -/
def matchDurationMs (s : String) : Option Nat :=
  let cs := s.data
  match cs.getLast? with
  | none => none
  | some u =>
    match unitMultiplier u with
    | none => none
    | some mult =>
      let ds := cs.dropLast
      if ds.isEmpty then none
      else if ds.all Char.isDigit then some (digitsToNat ds * mult)
      else none

/-- Step coarsening of `get_alert_history` (src/tools/alerts.ts lines
139-141): start from "1m", widen to "5m" past one day, to "15m" past one
week. -/
def stepForMs (ms : Nat) : String :=
  let step := "1m"
  let step := if ms > 24 * 60 * 60 * 1000 then "5m" else step
  if ms > 7 * 24 * 60 * 60 * 1000 then "15m" else step

/-- Start-time resolution of the `query_range` handler (src/tools/queries.ts
lines 35-52): a string matching the relative grammar becomes the instant
`now - ms` rendered by `iso` (the embedding's `Date.toISOString`); any other
string is passed through unchanged as an absolute time. -/
def resolveRangeStart (iso : Int → String) (now : Int) (start : String) : String :=
  match matchDurationMs start with
  | some ms => iso (now - (ms : Int))
  | none => start

/-- The fixed message thrown by `get_alert_history` when the time range does
not match the grammar. -/
def alertHistoryErrorMsg : String :=
  "Invalid time range format. Use formats like \"1h\", \"24h\", \"7d\""

/-- The four parameters `get_alert_history` passes to `client.queryRange`. -/
structure AlertHistoryRequest where
  query : String
  start : String
  endTime : String
  step : String
  deriving Repr, DecidableEq

/-- Request construction of the `get_alert_history` handler
(src/tools/alerts.ts lines 110-143): default the range to "1h", parse it,
throw on non-match, build the `ALERTS` query, pick the step, and pass
`now - ms` / `now` through `iso` as start / end. -/
def buildAlertHistoryRequest (iso : Int → String) (now : Int)
    (alertname : Option String) (timeRange : Option String) :
    Except String AlertHistoryRequest :=
  let range := jsOrD timeRange "1h"
  match matchDurationMs range with
  | none => .error alertHistoryErrorMsg
  | some ms =>
    let start := iso (now - (ms : Int))
    let endT := iso now
    let query := if jsTruthy alertname
      then "ALERTS\x7balertname=\"" ++ jsShow alertname ++ "\"\x7d"
      else "ALERTS"
    .ok { query := query, start := start, endTime := endT, step := stepForMs ms }

/-! ## Backend Client (src/prometheusClient.ts)

Every client method runs `try { axios GET; envelope check } catch (e) {
this.handleError(e) }`. The HTTP exchange is abstracted into an
`HttpOutcome` value: a 2xx response with a parsed envelope, an `AxiosError`
carrying an error response, or an `AxiosError` with a request but no
response. -/

/-- The backend's response envelope (`PrometheusResponse<T>`). -/
structure PrometheusResponse (T : Type) where
  status : String
  data : T
  errorType : Option String := none
  error : Option String := none
  warnings : Option (List String) := none

/-- The body an error response's `data` is cast to in `handleError`
(`PrometheusResponse<unknown>`), keeping the two fields read there. -/
structure ErrBody where
  error : Option String := none
  errorType : Option String := none

/-- The JavaScript exceptions that can reach `handleError`: an `AxiosError`
with a response, an `AxiosError` with only a request, or any other thrown
error (such as the client's own envelope-check `Error`). -/
inductive Thrown where
  | axiosResp (statusCode : Nat) (data : ErrBody) (message : String)
  | axiosReq (message : String)
  | plain (message : String)

/-- `PrometheusClient.handleError` (lines 172-182): translate an
`AxiosError` with a response into "Prometheus API error: ..." (preferring
the envelope's `error`/`errorType` over the raw message/status), an
`AxiosError` without a response into "Cannot connect ...", and rethrow any
other error unchanged. The returned string is the message of the error the
method finally throws. -/
def handleError (url : String) : Thrown → String
  | .axiosResp code d msg =>
    "Prometheus API error: " ++ jsOrD d.error msg ++ " (" ++ jsOrD d.errorType (toString code) ++ ")"
  | .axiosReq msg => "Cannot connect to Prometheus at " ++ url ++ ": " ++ msg
  | .plain msg => msg

/-- Outcome of the axios GET a client method performs. -/
inductive HttpOutcome (T : Type) where
  | ok (body : PrometheusResponse T)
  | respError (statusCode : Nat) (data : ErrBody) (message : String)
  | reqError (message : String)

/-- The shared body of every `PrometheusClient` method: on a 2xx response,
check `response.data.status !== "success"` and throw
`failMsg + response.data.error` (template-rendering an absent `error` as
"undefined"); route every throw through `handleError`. `failMsg` is the
method's prefix, e.g. "Query failed: " for `queryInstant`. -/
def backendMethod (url failMsg : String) {T : Type} (outcome : HttpOutcome T) :
    Except String T :=
  match outcome with
  | .ok body =>
    if body.status == "success" then .ok body.data
    else .error (handleError url (.plain (failMsg ++ jsShow body.error)))
  | .respError code d msg => .error (handleError url (.axiosResp code d msg))
  | .reqError msg => .error (handleError url (.axiosReq msg))


/-- One sample of an instant query result (`result` entry of
`InstantQueryResult`): a label map and a `[timestamp, value]` pair. -/
structure InstantSample where
  metric : List (String × String)
  value : Int × String
  deriving Repr, DecidableEq

/-- `InstantQueryResult` of src/prometheusClient.ts. -/
structure InstantQueryResult where
  resultType : String
  result : List InstantSample
  deriving Repr, DecidableEq

/-- `PrometheusClient.queryInstant` (lines 203-218) applied to the outcome of
its axios GET: envelope check with prefix "Query failed: ", errors routed
through `handleError`. The query/time parameters only shape the request and
are omitted from the response-processing embedding. -/
def queryInstantRespond (url : String) (outcome : HttpOutcome InstantQueryResult) :
    Except String InstantQueryResult :=
  backendMethod url "Query failed: " outcome

/-- A scrape target as returned by the backend (`Target` interface). -/
structure Target where
  discoveredLabels : List (String × String)
  labels : List (String × String)
  scrapePool : String
  scrapeUrl : String
  globalUrl : String
  lastError : String
  lastScrape : String
  lastScrapeDuration : Int
  health : String
  scrapeInterval : String
  scrapeTimeout : String
  deriving Repr, DecidableEq

/-- A dropped target (`droppedTargets` entry). -/
structure DroppedTarget where
  discoveredLabels : List (String × String)
  deriving Repr, DecidableEq

/-- `TargetsResponse` of src/prometheusClient.ts. -/
structure TargetsResponse where
  activeTargets : List Target
  droppedTargets : List DroppedTarget
  deriving Repr, DecidableEq

/-- `PrometheusClient.getTargets` (lines 241-253) applied to the outcome of
its axios GET: envelope check with prefix "Failed to get targets: ". -/
def getTargetsRespond (url : String) (outcome : HttpOutcome TargetsResponse) :
    Except String TargetsResponse :=
  backendMethod url "Failed to get targets: " outcome

/-! ## Target tools (src/tools/health.ts) -/

/-- The per-status counts `list_targets` returns as `summary`. -/
structure TargetSummary where
  total : Nat
  up : Nat
  down : Nat
  unknown : Nat
  dropped : Nat
  deriving Repr, DecidableEq

/-- The reshaped target entry both target tools return (with
`get_target_health` adding interval and labels). -/
structure TargetView where
  job : Option String
  inst : Option String
  health : String
  lastScrape : String
  lastScrapeDuration : Int
  lastError : Option String
  scrapeUrl : String
  deriving Repr, DecidableEq

/-- Result shape of the `list_targets` handler. -/
structure ListTargetsReply where
  summary : TargetSummary
  activeTargets : List TargetView
  deriving Repr, DecidableEq

/-- The reshaping `list_targets` applies to each kept target. -/
def reshapeTarget (t : Target) : TargetView :=
  { job := jsGet t.labels "job"
    inst := jsGet t.labels "instance"
    health := t.health
    lastScrape := t.lastScrape
    lastScrapeDuration := t.lastScrapeDuration
    lastError := jsOrNull t.lastError
    scrapeUrl := t.scrapeUrl }

/-- The `list_targets` handler (src/tools/health.ts lines 226-259) applied to
an already-fetched `TargetsResponse`: filter the active targets when a
truthy health argument other than "all" is given, but compute every summary
count over the unfiltered list. -/
def listTargets (targets : TargetsResponse) (health : Option String) : ListTargetsReply :=
  let filtered :=
    if jsTruthy health && !(health == some "all")
    then targets.activeTargets.filter (fun t => some t.health == health)
    else targets.activeTargets
  { summary :=
      { total := targets.activeTargets.length
        up := (targets.activeTargets.filter (fun t => t.health == "up")).length
        down := (targets.activeTargets.filter (fun t => t.health == "down")).length
        unknown := (targets.activeTargets.filter (fun t => t.health == "unknown")).length
        dropped := targets.droppedTargets.length }
    activeTargets := filtered.map reshapeTarget }

/-- The extended target entry returned by `get_target_health`. -/
structure TargetDetail where
  job : Option String
  inst : Option String
  health : String
  lastScrape : String
  lastScrapeDuration : Int
  lastError : Option String
  scrapeUrl : String
  scrapeInterval : String
  labels : List (String × String)
  deriving Repr, DecidableEq

/-- Result shape of the `get_target_health` handler: `{found:false,message}`
or `{found:true,targets}`. -/
inductive TargetHealthReply where
  | noMatch (message : String)
  | found (targets : List TargetDetail)
  deriving Repr, DecidableEq

/-- The predicate of the `filter` in `get_target_health`: drop the target
when a truthy job filter disagrees with `labels.job`, or a truthy instance
filter disagrees with `labels.instance`. -/
def keepsTarget (job inst : Option String) (t : Target) : Bool :=
  if jsTruthy job && !(jsGet t.labels "job" == job) then false
  else if jsTruthy inst && !(jsGet t.labels "instance" == inst) then false
  else true

/-- The `get_target_health` handler (src/tools/health.ts lines 268-299):
throw when both filters are falsy, propagate a `getTargets` failure, answer
`{found:false}` when the filter matches nothing, else return the matching
targets reshaped. -/
def getTargetHealth (targetsOutcome : Except String TargetsResponse)
    (job inst : Option String) : Except String TargetHealthReply :=
  if !jsTruthy job && !jsTruthy inst then
    .error "At least one of job or instance must be specified"
  else
    match targetsOutcome with
    | .error e => .error e
    | .ok targets =>
      let filtered := targets.activeTargets.filter (keepsTarget job inst)
      if filtered.isEmpty then .ok (.noMatch "No matching targets found")
      else .ok (.found (filtered.map (fun t =>
        { job := jsGet t.labels "job"
          inst := jsGet t.labels "instance"
          health := t.health
          lastScrape := t.lastScrape
          lastScrapeDuration := t.lastScrapeDuration
          lastError := jsOrNull t.lastError
          scrapeUrl := t.scrapeUrl
          scrapeInterval := t.scrapeInterval
          labels := t.labels })))


/-! ## Node exporter helper (src/tools/queries.ts lines 197-268) -/

/-- The ordered `(result-key, query)` pairs `query_node_exporter` inserts
into its `queries` object for a given instance, averaging window and metric
category, in source order: cpu, memory, disk, filesystem, network, load. -/
def nodeExporterQueries (inst range metric : String) : List (String × String) :=
  (if metric == "cpu" || metric == "all" then
    [("cpuUsagePercent", s!"100 - (avg by (instance) (rate(node_cpu_seconds_total\x7binstance=\"{inst}\",mode=\"idle\"\x7d[{range}])) * 100)"),
     ("cpuUserPercent", s!"avg by (instance) (rate(node_cpu_seconds_total\x7binstance=\"{inst}\",mode=\"user\"\x7d[{range}])) * 100"),
     ("cpuSystemPercent", s!"avg by (instance) (rate(node_cpu_seconds_total\x7binstance=\"{inst}\",mode=\"system\"\x7d[{range}])) * 100"),
     ("cpuIowaitPercent", s!"avg by (instance) (rate(node_cpu_seconds_total\x7binstance=\"{inst}\",mode=\"iowait\"\x7d[{range}])) * 100")]
   else []) ++
  (if metric == "memory" || metric == "all" then
    [("memoryTotalBytes", s!"node_memory_MemTotal_bytes\x7binstance=\"{inst}\"\x7d"),
     ("memoryAvailableBytes", s!"node_memory_MemAvailable_bytes\x7binstance=\"{inst}\"\x7d"),
     ("memoryUsedPercent", s!"100 - (node_memory_MemAvailable_bytes\x7binstance=\"{inst}\"\x7d / node_memory_MemTotal_bytes\x7binstance=\"{inst}\"\x7d * 100)"),
     ("swapUsedPercent", s!"100 - (node_memory_SwapFree_bytes\x7binstance=\"{inst}\"\x7d / node_memory_SwapTotal_bytes\x7binstance=\"{inst}\"\x7d * 100)")]
   else []) ++
  (if metric == "disk" || metric == "all" then
    [("diskReadBytesPerSec", s!"rate(node_disk_read_bytes_total\x7binstance=\"{inst}\"\x7d[{range}])"),
     ("diskWriteBytesPerSec", s!"rate(node_disk_written_bytes_total\x7binstance=\"{inst}\"\x7d[{range}])"),
     ("diskIOUtilization", s!"rate(node_disk_io_time_seconds_total\x7binstance=\"{inst}\"\x7d[{range}]) * 100")]
   else []) ++
  (if metric == "filesystem" || metric == "all" then
    [("filesystemUsedPercent", s!"100 - (node_filesystem_avail_bytes\x7binstance=\"{inst}\",fstype!~\"tmpfs|overlay\"\x7d / node_filesystem_size_bytes\x7binstance=\"{inst}\",fstype!~\"tmpfs|overlay\"\x7d * 100)"),
     ("filesystemAvailableBytes", s!"node_filesystem_avail_bytes\x7binstance=\"{inst}\",fstype!~\"tmpfs|overlay\"\x7d")]
   else []) ++
  (if metric == "network" || metric == "all" then
    [("networkReceiveBytesPerSec", s!"rate(node_network_receive_bytes_total\x7binstance=\"{inst}\",device!~\"lo|veth.*|docker.*|br-.*\"\x7d[{range}])"),
     ("networkTransmitBytesPerSec", s!"rate(node_network_transmit_bytes_total\x7binstance=\"{inst}\",device!~\"lo|veth.*|docker.*|br-.*\"\x7d[{range}])"),
     ("networkReceiveErrors", s!"rate(node_network_receive_errs_total\x7binstance=\"{inst}\"\x7d[{range}])"),
     ("networkTransmitErrors", s!"rate(node_network_transmit_errs_total\x7binstance=\"{inst}\"\x7d[{range}])")]
   else []) ++
  (if metric == "load" || metric == "all" then
    [("load1", s!"node_load1\x7binstance=\"{inst}\"\x7d"),
     ("load5", s!"node_load5\x7binstance=\"{inst}\"\x7d"),
     ("load15", s!"node_load15\x7binstance=\"{inst}\"\x7d"),
     ("cpuCount", s!"count(node_cpu_seconds_total\x7binstance=\"{inst}\",mode=\"idle\"\x7d)")]
   else [])

/-- Per-key outcome under a result key of the exporter helpers: either the
mapped rows of a successful instant query, or the inline
`\x7berror: message\x7d` object of a failed one. -/
inductive SubOutcome where
  | ok (rows : List (List (String × String) × String))
  | inlineError (message : String)
  deriving Repr, DecidableEq

/-- The body of the per-query loop of both exporter helpers: try the instant
query, map each sample to `\x7blabels, value\x7d`, and on a throw capture
the message inline. The backend is an oracle from query text to the
`queryInstant` outcome. -/
def subOutcomeOf (client : String → Except String InstantQueryResult) (q : String) :
    SubOutcome :=
  match client q with
  | .ok res => .ok (res.result.map (fun r => (r.metric, r.value.2)))
  | .error msg => .inlineError msg

/-- The whole fan-out loop: one entry per synthesized query, in order. -/
def runSubQueries (client : String → Except String InstantQueryResult)
    (qs : List (String × String)) : List (String × SubOutcome) :=
  qs.map (fun p => (p.1, subOutcomeOf client p.2))

/-- Result shape of the `query_node_exporter` handler. -/
structure NodeExporterReply where
  inst : String
  timeRange : String
  metrics : List (String × SubOutcome)
  deriving Repr, DecidableEq

/-- The `query_node_exporter` handler (src/tools/queries.ts lines 204-267):
default the window to "5m", synthesize the sub-queries for the requested
category, run them independently, and always return a result object. -/
def queryNodeExporter (client : String → Except String InstantQueryResult)
    (inst metric : String) (timeRange : Option String) : NodeExporterReply :=
  let range := jsOrD timeRange "5m"
  { inst := inst
    timeRange := range
    metrics := runSubQueries client (nodeExporterQueries inst range metric) }

/-! ## Dispatcher (src/index.ts lines 91-150)

The catalog is the flat `allTools` object: a list of name/tool pairs where a
tool carries a validation function (zod `safeParse`, which also fills
defaults) and a handler. Argument, value and client types are parameters;
`render` is `JSON.stringify(result, null, 2)`. -/

/-- The structured result the CallTool handler returns: a single text
payload and the error flag (absent means false). -/
structure ToolResult where
  text : String
  isError : Bool
  deriving Repr, DecidableEq

/-- A catalog entry as the dispatcher consumes it. -/
structure ToolDef (C A V : Type) where
  validate : Option A → Except String A
  handler : C → A → Except String V

/-- Catalog lookup (`name in allTools`). -/
def lookupTool {C A V : Type} (catalog : List (String × ToolDef C A V)) (name : String) :
    Option (ToolDef C A V) :=
  match catalog.find? (fun p => p.1 == name) with
  | none => none
  | some p => some p.2

/-- The CallTool request handler: unknown names yield
"Unknown tool: name"; validation failures yield "Invalid arguments: ...";
a throwing handler yields "Error executing name: message"; success renders
the handler's value. All failure results carry `isError := true`. -/
def callTool {C A V : Type} (render : V → String)
    (catalog : List (String × ToolDef C A V)) (client : C)
    (name : String) (args : Option A) : ToolResult :=
  match lookupTool catalog name with
  | none => { text := "Unknown tool: " ++ name, isError := true }
  | some tool =>
    match tool.validate args with
    | .error e => { text := "Invalid arguments: " ++ e, isError := true }
    | .ok v =>
      match tool.handler client v with
      | .error m => { text := "Error executing " ++ name ++ ": " ++ m, isError := true }
      | .ok r => { text := render r, isError := false }

/-! ## Client construction (src/prometheusClient.ts lines 149-170) -/

/-- The validated configuration (src/config.ts). -/
structure Config where
  prometheusUrl : String
  username : Option String
  password : Option String
  deriving Repr, DecidableEq

/-- The axios configuration object the constructor builds. -/
structure AxiosConfig where
  baseURL : String
  timeout : Nat
  auth : Option (String × String)
  deriving Repr, DecidableEq

/-- The `PrometheusClient` constructor's axios configuration: base URL and a
30 s timeout always, basic-auth credentials only under
`config.username && config.password`. -/
def mkAxiosConfig (config : Config) : AxiosConfig :=
  { baseURL := config.prometheusUrl
    timeout := 30000
    auth :=
      if jsTruthy config.username && jsTruthy config.password
      then some (jsShow config.username, jsShow config.password)
      else none }


/-! ## Concrete fixtures used by witness theorems -/

/-- A catalog entry whose handler always throws "kaput". -/
def boomTool : ToolDef Unit Unit Unit :=
  { validate := fun _ => .ok ()
    handler := fun _ _ => .error "kaput" }

/-- The cpuIowaitPercent query synthesized for instance "host:9100" with the
default "5m" window. -/
def cpuIowaitQueryW : String :=
  "avg by (instance) (rate(node_cpu_seconds_total\x7binstance=\"host:9100\",mode=\"iowait\"\x7d[5m])) * 100"

/-- The cpuUsagePercent query synthesized for instance "host:9100" with the
default "5m" window. -/
def cpuUsageQueryW : String :=
  "100 - (avg by (instance) (rate(node_cpu_seconds_total\x7binstance=\"host:9100\",mode=\"idle\"\x7d[5m])) * 100)"

/-- A backend oracle that fails exactly on the cpuIowaitPercent query and
returns an empty vector on every other query. -/
def clientW : String → Except String InstantQueryResult :=
  fun q =>
    if q == cpuIowaitQueryW then .error "boom"
    else .ok { resultType := "vector", result := [] }

/-- A target scraping job "node" on instance "n1:9100", used by target-tool
witnesses. -/
def nodeTargetW : Target :=
  { discoveredLabels := [("__address__", "n1:9100")]
    labels := [("job", "node"), ("instance", "n1:9100")]
    scrapePool := "node"
    scrapeUrl := "http://n1:9100/metrics"
    globalUrl := "http://n1:9100/metrics"
    lastError := ""
    lastScrape := "2026-01-01T00:00:00Z"
    lastScrapeDuration := 1
    health := "up"
    scrapeInterval := "15s"
    scrapeTimeout := "10s" }

/-! ## Substring lemmas -/

theorem isPrefixOf_append (t r : List Char) : List.isPrefixOf t (t ++ r) = true := by
  induction t with
  | nil => simp [List.isPrefixOf]
  | cons c cs ih => simp [List.isPrefixOf, ih]

theorem segIn_nil_left (s : List Char) : segIn [] s = true := by
  induction s with
  | nil => rfl
  | cons c rest ih => simp [segIn, List.isPrefixOf]

theorem segIn_here (t post : List Char) : segIn t (t ++ post) = true := by
  cases t with
  | nil => simpa using segIn_nil_left post
  | cons c cs =>
    show (List.isPrefixOf (c :: cs) ((c :: cs) ++ post) || segIn (c :: cs) (cs ++ post)) = true
    rw [isPrefixOf_append]
    rfl

theorem segIn_parts (pre t post : List Char) : segIn t (pre ++ (t ++ post)) = true := by
  induction pre with
  | nil => exact segIn_here t post
  | cons c cs ih =>
    show (List.isPrefixOf t (c :: (cs ++ (t ++ post))) || segIn t (cs ++ (t ++ post))) = true
    rw [ih]
    exact Bool.or_true _

theorem strIncludes_of_data (s t : String) (pre post : List Char)
    (h : s.data = pre ++ (t.data ++ post)) : strIncludes s t = true := by
  rw [strIncludes, h]
  exact segIn_parts _ _ _

theorem strIncludes_parts (pre t post : String) : strIncludes (pre ++ t ++ post) t = true := by
  apply strIncludes_of_data _ _ pre.data post.data
  simp [String.data_append]

theorem strIncludes_suffix (pre t : String) : strIncludes (pre ++ t) t = true := by
  apply strIncludes_of_data _ _ pre.data []
  simp [String.data_append]


/-! ## Claim theorems -/

/-- Claim C4: for every alert-history call whose lookback parses to `ms`
milliseconds, the step passed to the range query is "1m" when
`ms ≤ 86400000`, "5m" when `86400000 < ms ≤ 604800000`, and "15m" when
`ms > 604800000`. -/
theorem c4_alert_history_step_policy (iso : Int → String) (now : Int)
    (alertname : Option String) (s : String) (ms : Nat)
    (h : matchDurationMs s = some ms) :
    ∃ req, buildAlertHistoryRequest iso now alertname (some s) = .ok req ∧
      (ms ≤ 86400000 → req.step = "1m") ∧
      (86400000 < ms → ms ≤ 604800000 → req.step = "5m") ∧
      (604800000 < ms → req.step = "15m") := by
  have hs : (s == "") = false := by
    cases hb : s == "" with
    | false => rfl
    | true =>
      exfalso
      have he : s = "" := eq_of_beq hb
      subst he
      simp [matchDurationMs] at h
  have hreq : buildAlertHistoryRequest iso now alertname (some s) = .ok
      { query := if jsTruthy alertname
          then "ALERTS\x7balertname=\"" ++ jsShow alertname ++ "\"\x7d"
          else "ALERTS"
        start := iso (now - (ms : Int))
        endTime := iso now
        step := stepForMs ms } := by
    simp [buildAlertHistoryRequest, jsOrD, hs, h]
  refine ⟨_, hreq, ?_, ?_, ?_⟩
  · intro h1
    show stepForMs ms = "1m"
    simp only [stepForMs]
    rw [if_neg (by omega), if_neg (by omega)]
  · intro h1 h2
    show stepForMs ms = "5m"
    simp only [stepForMs]
    rw [if_neg (by omega), if_pos (by omega)]
  · intro h1
    show stepForMs ms = "15m"
    simp only [stepForMs]
    rw [if_pos (by omega)]

/-- Witness for C4: a "2h" lookback parses to 7 200 000 ms and falls in the
"1m" band. -/
theorem c4_alert_history_step_policy_witness :
    ∃ req, buildAlertHistoryRequest (fun _ => "") 0 none (some "2h") = .ok req ∧
      (7200000 ≤ 86400000 → req.step = "1m") ∧
      (86400000 < 7200000 → 7200000 ≤ 604800000 → req.step = "5m") ∧
      (604800000 < 7200000 → req.step = "15m") :=
  c4_alert_history_step_policy (fun _ => "") 0 none "2h" 7200000 (by rfl)

/-- Claim C5: invoking an operation name absent from the catalog returns a
structured result with `isError := true` naming the unknown operation, and
the result is the same for every backend client, so no client method is
invoked. -/
theorem c5_unknown_tool (C A V : Type) (render : V → String)
    (catalog : List (String × ToolDef C A V)) (name : String) (args : Option A)
    (h : lookupTool catalog name = none) :
    (∀ client : C, callTool render catalog client name args =
      { text := "Unknown tool: " ++ name, isError := true }) ∧
    strIncludes ("Unknown tool: " ++ name) name = true := by
  constructor
  · intro client
    simp [callTool, h]
  · exact strIncludes_suffix "Unknown tool: " name

/-- Witness for C5: an empty catalog and the name "does_not_exist". -/
theorem c5_unknown_tool_witness :
    callTool (fun _ : Unit => "") ([] : List (String × ToolDef Unit Unit Unit)) ()
      "does_not_exist" none = { text := "Unknown tool: " ++ "does_not_exist", isError := true } ∧
    strIncludes ("Unknown tool: " ++ "does_not_exist") "does_not_exist" = true :=
  ⟨(c5_unknown_tool Unit Unit Unit (fun _ => "") [] "does_not_exist" none rfl).1 (),
   (c5_unknown_tool Unit Unit Unit (fun _ => "") [] "does_not_exist" none rfl).2⟩

/-- Claim C8: `list_targets` with health filter "all" returns the same reply
as with no health filter, and the per-status summary counts are computed
over the full unfiltered target list whatever the filter. -/
theorem c8_list_targets_all_is_no_filter (targets : TargetsResponse)
    (health : Option String) :
    listTargets targets (some "all") = listTargets targets none ∧
    (listTargets targets health).summary =
      { total := targets.activeTargets.length
        up := (targets.activeTargets.filter (fun t => t.health == "up")).length
        down := (targets.activeTargets.filter (fun t => t.health == "down")).length
        unknown := (targets.activeTargets.filter (fun t => t.health == "unknown")).length
        dropped := targets.droppedTargets.length } := by
  constructor
  · rfl
  · rfl

/-- Claim C10: the client constructor attaches basic-auth credentials
exactly when both a username and a password are configured (truthy); with
only one of the two set, no auth entry is attached. -/
theorem c10_basic_auth_requires_both (config : Config) :
    (mkAxiosConfig config).auth.isSome
      = (jsTruthy config.username && jsTruthy config.password) := by
  simp only [mkAxiosConfig]
  split <;> simp_all


/-- Claim C2: for every catalog operation and argument object, when the
operation's handler throws, the dispatcher returns a structured failure
result with `isError := true` whose text contains both the handler's message
and the operation's name; the exception never propagates (the entry point
totally returns this result). -/
theorem c2_dispatcher_contains_handler_errors (C A V : Type) (render : V → String)
    (catalog : List (String × ToolDef C A V)) (client : C) (name : String)
    (args : Option A) (tool : ToolDef C A V) (v : A) (m : String)
    (hfind : lookupTool catalog name = some tool)
    (hval : tool.validate args = .ok v)
    (hrun : tool.handler client v = .error m) :
    callTool render catalog client name args =
      { text := "Error executing " ++ name ++ ": " ++ m, isError := true } ∧
    strIncludes ("Error executing " ++ name ++ ": " ++ m) m = true ∧
    strIncludes ("Error executing " ++ name ++ ": " ++ m) name = true := by
  refine ⟨?_, ?_, ?_⟩
  · simp [callTool, hfind, hval, hrun]
  · exact strIncludes_suffix ("Error executing " ++ name ++ ": ") m
  · apply strIncludes_of_data _ _ "Error executing ".data (": " ++ m).data
    simp [String.data_append]

/-- Witness for C2: a one-entry catalog whose handler throws "kaput". -/
theorem c2_dispatcher_contains_handler_errors_witness :
    callTool (fun _ : Unit => "") [("boom_tool", boomTool)] () "boom_tool" none =
      { text := "Error executing " ++ "boom_tool" ++ ": " ++ "kaput", isError := true } ∧
    strIncludes ("Error executing " ++ "boom_tool" ++ ": " ++ "kaput") "kaput" = true ∧
    strIncludes ("Error executing " ++ "boom_tool" ++ ": " ++ "kaput") "boom_tool" = true :=
  c2_dispatcher_contains_handler_errors Unit Unit Unit (fun _ => "")
    [("boom_tool", boomTool)] () "boom_tool" none boomTool () "kaput" rfl rfl rfl

/-- Claim C7: `get_target_health` fails with the missing-filter error when
neither job nor instance is supplied, and with at least one filter supplied
that matches no active target it returns the structured no-match result
(never a thrown error). -/
theorem c7_target_health_missing_filter_and_no_match
    (outcome : Except String TargetsResponse) (job inst : Option String)
    (targets : TargetsResponse)
    (hok : outcome = .ok targets)
    (hsupplied : jsTruthy job = true ∨ jsTruthy inst = true)
    (hempty : targets.activeTargets.filter (keepsTarget job inst) = []) :
    getTargetHealth outcome job inst = .ok (.noMatch "No matching targets found") ∧
    (∀ o : Except String TargetsResponse,
      getTargetHealth o none none =
        .error "At least one of job or instance must be specified") := by
  constructor
  · subst hok
    have hcond : (!jsTruthy job && !jsTruthy inst) = false := by
      rcases hsupplied with hj | hi
      · simp [hj]
      · simp [hi]
    simp [getTargetHealth, hcond, hempty]
  · intro o
    simp [getTargetHealth, jsTruthy]

/-- Witness for C7: one "node" target, a job filter "api" matching nothing,
and the missing-filter case. -/
theorem c7_target_health_witness :
    getTargetHealth (.ok { activeTargets := [nodeTargetW], droppedTargets := [] })
      (some "api") none = .ok (.noMatch "No matching targets found") ∧
    getTargetHealth (.ok { activeTargets := [nodeTargetW], droppedTargets := [] })
      none none = .error "At least one of job or instance must be specified" := by
  have h := c7_target_health_missing_filter_and_no_match
    (.ok { activeTargets := [nodeTargetW], droppedTargets := [] }) (some "api") none
    { activeTargets := [nodeTargetW], droppedTargets := [] } rfl (Or.inl (by rfl)) (by rfl)
  exact ⟨h.1, h.2 (.ok { activeTargets := [nodeTargetW], droppedTargets := [] })⟩


/-- Counterexample to claim C1: the backend answers with HTTP 2xx and the
envelope `\x7bstatus:"error", error:"boom", errorType:"bad_data"\x7d`, yet
`queryInstant` throws "Query failed: boom" — the errorType "bad_data" is not
in the message (the envelope-check `Error` is not an `AxiosError`, so
`handleError` rethrows it unchanged). -/
theorem c1_counterexample :
    queryInstantRespond "http://prom:9090"
      (.ok { status := "error", data := { resultType := "vector", result := [] },
             error := some "boom", errorType := some "bad_data" })
      = .error ("Query failed: " ++ "boom") ∧
    strIncludes ("Query failed: " ++ "boom") "bad_data" = false := by
  exact ⟨rfl, rfl⟩

/-- Claim C1 as amended: on a received response whose envelope status is not
"success" the method throws with message `failMsg ++ error text` — so the
backend's error text `x` is in the message, but the errorType is not
appended on this 2xx path; the errorType joins the message only when the
failure arrives as an HTTP error response (`AxiosError` path). Either way, a
non-"success" envelope is treated as a failure regardless of HTTP status. -/
theorem c1_amended_envelope_failure (url failMsg : String) (T : Type) :
    (∀ (body : PrometheusResponse T) (x : String),
      body.status ≠ "success" → body.error = some x →
      backendMethod url failMsg (.ok body) = .error (failMsg ++ x) ∧
      strIncludes (failMsg ++ x) x = true) ∧
    (∀ (code : Nat) (d : ErrBody) (httpMsg x y : String),
      d.error = some x → x ≠ "" → d.errorType = some y → y ≠ "" →
      ∃ m, backendMethod url failMsg (.respError code d httpMsg : HttpOutcome T) = .error m ∧
        strIncludes m x = true ∧ strIncludes m y = true) := by
  constructor
  · intro body x hne herr
    have hs : (body.status == "success") = false := by
      simp [hne]
    constructor
    · simp [backendMethod, hs, handleError, jsShow, herr]
    · exact strIncludes_suffix failMsg x
  · intro code d httpMsg x y herr hx htype hy
    refine ⟨"Prometheus API error: " ++ x ++ " (" ++ y ++ ")", ?_, ?_, ?_⟩
    · simp [backendMethod, handleError, jsOrD, herr, htype, hx, hy]
    · apply strIncludes_of_data _ _ "Prometheus API error: ".data (" (" ++ y ++ ")").data
      simp [String.data_append]
    · apply strIncludes_of_data _ _ ("Prometheus API error: " ++ x ++ " (").data ")".data
      simp [String.data_append]

/-- Witness for C1 (amended): the 2xx error-envelope case at a concrete
envelope, and the HTTP-error case at status 400. -/
theorem c1_amended_envelope_failure_witness :
    (backendMethod "u" "Query failed: "
      (.ok { status := "error", data := (), error := some "boom", errorType := some "bad_data" })
      = .error ("Query failed: " ++ "boom") ∧
     strIncludes ("Query failed: " ++ "boom") "boom" = true) ∧
    (∃ m, backendMethod "u" "Query failed: "
        (.respError 400 { error := some "boom", errorType := some "bad_data" }
          "Request failed with status code 400" : HttpOutcome Unit)
        = .error m ∧
      strIncludes m "boom" = true ∧ strIncludes m "bad_data" = true) :=
  ⟨(c1_amended_envelope_failure "u" "Query failed: " Unit).1
      { status := "error", data := (), error := some "boom", errorType := some "bad_data" }
      "boom" (by simp) rfl,
   (c1_amended_envelope_failure "u" "Query failed: " Unit).2
      400 { error := some "boom", errorType := some "bad_data" }
      "Request failed with status code 400" "boom" "bad_data" rfl (by simp) rfl (by simp)⟩


/-- Counterexample to claim C3: on the non-matching string "zq", the
alert-history handler's failure message is fixed text that does not carry
the offending string, and the range-query handler does not signal at all —
it passes "zq" through unchanged as an absolute start time. -/
theorem c3_counterexample :
    buildAlertHistoryRequest (fun _ => "") 0 none (some "zq") = .error alertHistoryErrorMsg ∧
    strIncludes alertHistoryErrorMsg "zq" = false ∧
    resolveRangeStart (fun _ => "") 0 "zq" = "zq" := by
  exact ⟨rfl, rfl, rfl⟩

/-- Claim C3 as amended: every `<int><unit>` string with unit in
`\x7bs,m,h,d,w\x7d` converts to `int * multiplier[unit]` milliseconds with
multipliers s=1000, m=60000, h=3600000, d=86400000, w=604800000, and both
consumers (the range-query start argument and the alert-history timeRange)
use that value as `now - ms`; on a non-matching string the alert-history
handler fails with a fixed invalid-format message (which does not embed the
offending string), while the range-query handler passes the string through
unchanged instead of failing. -/
theorem c3_amended_duration_parsing :
    (unitMultiplier 's' = some 1000 ∧ unitMultiplier 'm' = some 60000 ∧
     unitMultiplier 'h' = some 3600000 ∧ unitMultiplier 'd' = some 86400000 ∧
     unitMultiplier 'w' = some 604800000) ∧
    (∀ (ds : List Char) (u : Char) (mult : Nat),
      ds ≠ [] → ds.all Char.isDigit = true → unitMultiplier u = some mult →
      matchDurationMs (String.mk (ds ++ [u])) = some (digitsToNat ds * mult)) ∧
    (∀ (iso : Int → String) (now : Int) (s : String) (ms : Nat) (alertname : Option String),
      matchDurationMs s = some ms →
      resolveRangeStart iso now s = iso (now - (ms : Int)) ∧
      ∃ req, buildAlertHistoryRequest iso now alertname (some s) = .ok req ∧
        req.start = iso (now - (ms : Int)) ∧ req.endTime = iso now) ∧
    (∀ (iso : Int → String) (now : Int) (s : String) (alertname : Option String),
      matchDurationMs s = none → s ≠ "" →
      resolveRangeStart iso now s = s ∧
      buildAlertHistoryRequest iso now alertname (some s) = .error alertHistoryErrorMsg) := by
  refine ⟨⟨rfl, rfl, rfl, rfl, rfl⟩, ?_, ?_, ?_⟩
  · intro ds u mult hne hall hu
    have hie : ds.isEmpty = false := by
      cases ds with
      | nil => exact absurd rfl hne
      | cons a l => rfl
    simp [matchDurationMs, List.getLast?_concat, List.dropLast_concat, hu, hie, hall]
  · intro iso now s ms alertname h
    have hs : (s == "") = false := by
      cases hb : s == "" with
      | false => rfl
      | true =>
        exfalso
        have he : s = "" := eq_of_beq hb
        subst he
        simp [matchDurationMs] at h
    have hreq : buildAlertHistoryRequest iso now alertname (some s) = .ok
        { query := if jsTruthy alertname
            then "ALERTS\x7balertname=\"" ++ jsShow alertname ++ "\"\x7d"
            else "ALERTS"
          start := iso (now - (ms : Int))
          endTime := iso now
          step := stepForMs ms } := by
      simp [buildAlertHistoryRequest, jsOrD, hs, h]
    exact ⟨by simp [resolveRangeStart, h], ⟨_, hreq, rfl, rfl⟩⟩
  · intro iso now s alertname h hne
    have hs : (s == "") = false := by
      simp [hne]
    exact ⟨by simp [resolveRangeStart, h],
           by simp [buildAlertHistoryRequest, jsOrD, hs, h]⟩

/-- Witness for C3 (amended): "2h" parses to 2 * 3600000 ms, "30s" drives
both handlers to `now - 30000`, and "zq" takes the non-match branches. -/
theorem c3_amended_duration_parsing_witness :
    matchDurationMs (String.mk (['2'] ++ ['h'])) = some (digitsToNat ['2'] * 3600000) ∧
    (resolveRangeStart (fun _ => "t") 0 "30s" = (fun _ : Int => "t") (0 - (30000 : Int)) ∧
     ∃ req, buildAlertHistoryRequest (fun _ => "t") 0 none (some "30s") = .ok req ∧
       req.start = (fun _ : Int => "t") (0 - (30000 : Int)) ∧
       req.endTime = (fun _ : Int => "t") (0 : Int)) ∧
    (resolveRangeStart (fun _ => "t") 0 "zq" = "zq" ∧
     buildAlertHistoryRequest (fun _ => "t") 0 none (some "zq") = .error alertHistoryErrorMsg) :=
  ⟨c3_amended_duration_parsing.2.1 ['2'] 'h' 3600000 (by simp) (by decide) rfl,
   c3_amended_duration_parsing.2.2.1 (fun _ => "t") 0 "30s" 30000 none (by rfl),
   c3_amended_duration_parsing.2.2.2 (fun _ => "t") 0 "zq" none rfl (by simp)⟩


/-- Claim C6: for category "cpu" the node-exporter helper synthesizes
exactly the four CPU-family sub-queries (no memory, disk, filesystem,
network or load keys), and for every backend oracle each sub-query whose
instant call fails maps to an inline error under its own key while every
succeeding sub-query's mapped rows are still present — the handler itself
always returns a result object. -/
theorem c6_node_exporter_cpu
    (client : String → Except String InstantQueryResult)
    (inst : String) (timeRange : Option String) :
    ((nodeExporterQueries inst (jsOrD timeRange "5m") "cpu").map Prod.fst =
      ["cpuUsagePercent", "cpuUserPercent", "cpuSystemPercent", "cpuIowaitPercent"]) ∧
    (∀ name q msg, (name, q) ∈ nodeExporterQueries inst (jsOrD timeRange "5m") "cpu" →
      client q = .error msg →
      (name, SubOutcome.inlineError msg) ∈ (queryNodeExporter client inst "cpu" timeRange).metrics) ∧
    (∀ name q res, (name, q) ∈ nodeExporterQueries inst (jsOrD timeRange "5m") "cpu" →
      client q = .ok res →
      (name, SubOutcome.ok (res.result.map (fun r => (r.metric, r.value.2)))) ∈
        (queryNodeExporter client inst "cpu" timeRange).metrics) := by
  refine ⟨rfl, ?_, ?_⟩
  · intro name q msg hmem hq
    have h2 := List.mem_map_of_mem
      (fun p : String × String => (p.1, subOutcomeOf client p.2)) hmem
    simpa [queryNodeExporter, runSubQueries, subOutcomeOf, hq] using h2
  · intro name q res hmem hq
    have h2 := List.mem_map_of_mem
      (fun p : String × String => (p.1, subOutcomeOf client p.2)) hmem
    simpa [queryNodeExporter, runSubQueries, subOutcomeOf, hq] using h2

/-- Witness for C6: against `clientW`, which fails only the cpuIowaitPercent
query, instance "host:9100" with the defaulted "5m" window gets an inline
error under cpuIowaitPercent and a mapped (empty) row list under
cpuUsagePercent. -/
theorem c6_node_exporter_cpu_witness :
    ("cpuIowaitPercent", SubOutcome.inlineError "boom") ∈
      (queryNodeExporter clientW "host:9100" "cpu" none).metrics ∧
    ("cpuUsagePercent", SubOutcome.ok []) ∈
      (queryNodeExporter clientW "host:9100" "cpu" none).metrics :=
  ⟨(c6_node_exporter_cpu clientW "host:9100" none).2.1
      "cpuIowaitPercent" cpuIowaitQueryW "boom" (by decide) (by rfl),
   (c6_node_exporter_cpu clientW "host:9100" none).2.2
      "cpuUsagePercent" cpuUsageQueryW { resultType := "vector", result := [] }
      (by decide) (by rfl)⟩

